import Mathlib

/- Verification development for the black-hole / solar-system simulation.
   The phase sequencer, the year and stability mappers, the Sun consumption
   formulas, the Venus orbit state machine and the stability-graph buffer are
   embedded as executable functions over the rationals, transcribed from the
   frame-update callbacks of the source. -/

/-- The six simulation phases, a closed enumeration. -/
inductive Phase where
  | stable
  | approach
  | interaction
  | consumption
  | void
  | rebirth
deriving DecidableEq, Repr

/-- Sequencer state: current phase and elapsed time in that phase (seconds). -/
structure SceneState where
  phase : Phase
  timer : ℚ
deriving DecidableEq, Repr

/-- One sequencer step, transcribed from the SceneLogic frame callback: the
frame advance dt is added to the timer, and the chained conditionals move to
the next phase with the timer reset to 0 when the new timer exceeds the
threshold of the current phase. -/
def sceneStep (dt : ℚ) (s : SceneState) : SceneState :=
  if s.phase = Phase.stable ∧ s.timer + dt > 5 then { phase := Phase.approach, timer := 0 }
  else if s.phase = Phase.approach ∧ s.timer + dt > 10 then { phase := Phase.interaction, timer := 0 }
  else if s.phase = Phase.interaction ∧ s.timer + dt > 20 then { phase := Phase.consumption, timer := 0 }
  else if s.phase = Phase.consumption ∧ s.timer + dt > 10 then { phase := Phase.void, timer := 0 }
  else if s.phase = Phase.void ∧ s.timer + dt > 5 then { phase := Phase.rebirth, timer := 0 }
  else if s.phase = Phase.rebirth ∧ s.timer + dt > 15 then { phase := Phase.stable, timer := 0 }
  else { phase := s.phase, timer := s.timer + dt }

/-- Effective frame advance, transcribed from the source line
dt = delta * (params.timeScale || 1): a time scale of exactly 0 is falsy in
the host language, so the multiplier falls back to 1. -/
def effectiveDelta (delta timeScale : ℚ) : ℚ :=
  delta * (if timeScale = 0 then 1 else timeScale)

/-- One frame of the SceneLogic update: when the playing flag is false the
callback returns at once and the sequencer state is untouched; otherwise the
sequencer steps by the effective frame advance. -/
def frameUpdate (isPlaying : Bool) (timeScale delta : ℚ) (s : SceneState) : SceneState :=
  if isPlaying then sceneStep (effectiveDelta delta timeScale) s else s

/-- Modelled from the spec: per-phase duration thresholds of the transition
table (stable 5, approach 10, interaction 20, consumption 10, void 5,
rebirth 15 seconds), to be compared with the thresholds inside sceneStep. -/
def specThreshold (p : Phase) : ℚ :=
  match p with
  | Phase.stable => 5
  | Phase.approach => 10
  | Phase.interaction => 20
  | Phase.consumption => 10
  | Phase.void => 5
  | Phase.rebirth => 15

/-- Modelled from the spec: the fixed cyclic successor of the transition
table, to be compared with the targets inside sceneStep. -/
def specNextPhase (p : Phase) : Phase :=
  match p with
  | Phase.stable => Phase.approach
  | Phase.approach => Phase.interaction
  | Phase.interaction => Phase.consumption
  | Phase.consumption => Phase.void
  | Phase.void => Phase.rebirth
  | Phase.rebirth => Phase.stable

/-- Simulated year as a function of phase and elapsed-in-phase time,
transcribed from the switch in the SceneLogic frame callback. -/
def currentYear (phase : Phase) (t : ℚ) : ℚ :=
  match phase with
  | Phase.stable => 2025
  | Phase.approach => 2025 + t * 100
  | Phase.interaction => 3025 + t * (5/2)
  | Phase.consumption => 3075 + t * (1/10)
  | Phase.void => 0
  | Phase.rebirth => t ^ 6

/-- Unclamped stability score, transcribed from handleUpdate in App: starts
at 100 and is overwritten by the phase-specific formula. -/
def stabilityRaw (phase : Phase) (year : ℚ) : ℚ :=
  match phase with
  | Phase.stable => 100
  | Phase.approach => 95 - (year - 2025) / 20
  | Phase.interaction => 80 - (year - 3025) * 2
  | Phase.consumption => 20 - (year - 3075) * 2
  | Phase.void => 0
  | Phase.rebirth => 100

/-- Stability score after the clamp Math.max(0, Math.min(100, stability)). -/
def stability (phase : Phase) (year : ℚ) : ℚ :=
  max 0 (min 100 (stabilityRaw phase year))

/-- Sun scale during the consumption phase, transcribed from the Sun frame
callback: scale = Math.max(0, 1 - (timer / 5)). -/
def sunScaleConsumption (timer : ℚ) : ℚ :=
  max 0 (1 - timer / 5)

/-- Consumed fraction reported outward by the Sun during consumption:
onConsume(1 - scale). -/
def sunConsumedFraction (timer : ℚ) : ℚ :=
  1 - sunScaleConsumption timer

/-- Outer radius of the intruder accretion ring, transcribed from
ringGeometry args with inner 2 and outer 2 + sunConsumed * 4. -/
def accretionOuterRadius (sunConsumed : ℚ) : ℚ :=
  2 + sunConsumed * 4

/-- Per-planet mutable orbit state of the Planet component. -/
structure OrbitState where
  dist : ℚ
  angle : ℚ
  destroyed : Bool
deriving DecidableEq, Repr

/-- One frame of the Planet component for Venus (speed 1.2, distance 16),
transcribed from the Planet frame callback. The callback returns at once
when the group ref is null or the state is destroyed (a destroyed planet, or
a planet in the void phase, is not rendered, so its ref is null); the
stable-phase reset branch sits after that early return. The queued state
updates (destroy flag, then dist and angle) are applied in order to the
previous state. -/
def venusFrame (phase : Phase) (timer delta : ℚ) (s : OrbitState) : OrbitState :=
  if s.destroyed ∨ phase = Phase.void then s
  else
    let speed := (6/5) * delta * (1/2)
    let newDist := s.dist
    let newAngle := s.angle + speed
    match phase with
    | Phase.rebirth =>
        let rebirthProgress := min 1 (timer / 10)
        let d2 := 1/10 + (16 - 1/10) * rebirthProgress
        let speed2 := 2 * (1 - rebirthProgress) + (6/5) * (1/2)
        { dist := d2, angle := newAngle + speed2, destroyed := s.destroyed }
    | Phase.interaction =>
        if timer > 5 then { dist := newDist, angle := newAngle, destroyed := true }
        else { dist := newDist, angle := newAngle, destroyed := s.destroyed }
    | Phase.consumption =>
        let d2 := newDist + (0 - newDist) * (delta * (1/2))
        if d2 < 2 then { dist := d2, angle := newAngle, destroyed := true }
        else { dist := d2, angle := newAngle, destroyed := s.destroyed }
    | _ => { dist := newDist, angle := newAngle, destroyed := s.destroyed }

/-- A retained point of the stability graph; the year is stored floored. -/
structure GraphPoint where
  year : ℤ
  stability : ℚ
deriving DecidableEq, Repr

/-- Append a sample and keep the last 50 points, transcribed from the
setGraphData updater in handleUpdate (push, then slice when the length
exceeds 50). -/
def appendCapped (gd : List GraphPoint) (pt : GraphPoint) : List GraphPoint :=
  if (gd ++ [pt]).length > 50 then (gd ++ [pt]).drop ((gd ++ [pt]).length - 50)
  else gd ++ [pt]

/-- Net effect of one handleUpdate call on the graph buffer, transcribed
from App: a sample is appended only when more than 500 ms of wall-clock time
passed since the last sample and the phase is not stable; on the transition
from void to rebirth the buffer is replaced by the single seed point (both
queued updates run in order, so the replacement wins). -/
def graphStep (prevPhase phase : Phase) (year now lastUpdate : ℚ)
    (gd : List GraphPoint) : List GraphPoint :=
  if phase = Phase.rebirth ∧ prevPhase = Phase.void then [{ year := 0, stability := 100 }]
  else if now - lastUpdate > 500 ∧ phase ≠ Phase.stable then
    appendCapped gd { year := Int.floor year, stability := stability phase year }
  else gd

/-- The sequencer step agrees with the spec transition table: the chained
conditionals are exactly a threshold test against the current phase. -/
theorem sceneStep_eq (d : ℚ) (s : SceneState) :
    sceneStep d s =
      if s.timer + d > specThreshold s.phase
      then { phase := specNextPhase s.phase, timer := 0 }
      else { phase := s.phase, timer := s.timer + d } := by
  obtain ⟨p, t⟩ := s
  cases p <;> simp [sceneStep, specThreshold, specNextPhase]

/-- Claim C1: one sequencer step adds the scaled delta to the elapsed timer
and moves to the unique cyclic successor phase with the timer reset to 0
exactly when the new timer exceeds the threshold of the current phase;
otherwise the phase is unchanged and the new timer is kept. -/
theorem c1_sequencer_step (p : Phase) (t d : ℚ) (ht : 0 ≤ t) (hd : 0 ≤ d) :
    (t + d > specThreshold p →
      sceneStep d { phase := p, timer := t } = { phase := specNextPhase p, timer := 0 }) ∧
    (t + d ≤ specThreshold p →
      sceneStep d { phase := p, timer := t } = { phase := p, timer := t + d }) := by
  rw [sceneStep_eq]
  constructor
  · intro h
    simp only at h ⊢
    rw [if_pos h]
  · intro h
    simp only at h ⊢
    rw [if_neg (not_lt.mpr h)]

/-- Witness for C1, the scenario of the spec: phase stable, elapsed 4.9 s,
delta 0.2 s gives elapsed 5.1 s which exceeds the threshold 5, so the phase
becomes approach with the timer reset to 0. -/
theorem c1_sequencer_step_witness :
    sceneStep (1/5) { phase := Phase.stable, timer := 49/10 } =
      { phase := Phase.approach, timer := 0 } :=
  (c1_sequencer_step Phase.stable (49/10) (1/5) (by norm_num) (by norm_num)).1
    (by norm_num [specThreshold])

/-- Claim C2: for every phase and every elapsed-in-phase time t at least 0,
the simulated year equals the per-phase formula: 2025 in stable,
2025 + 100 t in approach, 3025 + 2.5 t in interaction, 3075 + 0.1 t in
consumption, 0 in void, and t to the sixth power in rebirth. -/
theorem c2_year_formulas (t : ℚ) (ht : 0 ≤ t) :
    currentYear Phase.stable t = 2025 ∧
    currentYear Phase.approach t = 2025 + 100 * t ∧
    currentYear Phase.interaction t = 3025 + (5/2) * t ∧
    currentYear Phase.consumption t = 3075 + (1/10) * t ∧
    currentYear Phase.void t = 0 ∧
    currentYear Phase.rebirth t = t ^ 6 := by
  refine ⟨rfl, ?_, ?_, ?_, rfl, rfl⟩ <;> simp [currentYear] <;> ring

/-- Witness for C2 at t = 2. -/
theorem c2_year_formulas_witness :
    currentYear Phase.approach 2 = 2025 + 100 * 2 ∧
    currentYear Phase.rebirth 2 = 2 ^ 6 :=
  ⟨(c2_year_formulas 2 (by norm_num)).2.1,
   (c2_year_formulas 2 (by norm_num)).2.2.2.2.2⟩

/-- Claim C3: for every phase and every year, including extreme and negative
years, the stability score lies in the closed interval from 0 to 100. -/
theorem c3_stability_clamped (p : Phase) (year : ℚ) :
    0 ≤ stability p year ∧ stability p year ≤ 100 := by
  unfold stability
  exact ⟨le_max_left 0 _, max_le (by norm_num) (min_le_left _ _)⟩

/-- Claim C4, at the failing input: once the destroyed flag of Venus is set,
a stable-phase frame leaves it set, for every timer, delta, distance and
angle — the frame callback returns before the reset branch can run, so the
flag is never reset to false, contradicting the reset the code comments and
the claim describe. -/
theorem c4_destroyed_never_reset (t d ds ang : ℚ) :
    venusFrame Phase.stable t d { dist := ds, angle := ang, destroyed := true } =
      { dist := ds, angle := ang, destroyed := true } := rfl

/-- Claim C5: during consumption the Sun scale starts at 1 at t = 0, is
non-increasing, equals 1 - t / 5 on the 5-second window, reaches 0 at t = 5;
the consumed fraction is 1 minus the scale, reaching 1 at t = 5; and the
accretion ring outer radius is 2 plus 4 times the consumed fraction,
reaching 6 when the fraction is 1. -/
theorem c5_consumption_scaling (t1 t2 : ℚ) (h0 : 0 ≤ t1) (h12 : t1 ≤ t2) :
    sunScaleConsumption 0 = 1 ∧
    sunScaleConsumption t2 ≤ sunScaleConsumption t1 ∧
    (t1 ≤ 5 → sunScaleConsumption t1 = 1 - t1 / 5) ∧
    sunScaleConsumption 5 = 0 ∧
    sunConsumedFraction t1 = 1 - sunScaleConsumption t1 ∧
    sunConsumedFraction 5 = 1 ∧
    accretionOuterRadius (sunConsumedFraction 5) = 6 := by
  refine ⟨by norm_num [sunScaleConsumption], ?_, ?_,
    by norm_num [sunScaleConsumption],
    rfl,
    by norm_num [sunConsumedFraction, sunScaleConsumption],
    by norm_num [accretionOuterRadius, sunConsumedFraction, sunScaleConsumption]⟩
  · exact max_le_max le_rfl (by linarith)
  · intro h5
    rw [sunScaleConsumption, max_eq_right (by linarith)]

/-- Witness for C5 at t1 = 2, t2 = 3. -/
theorem c5_consumption_scaling_witness :
    sunScaleConsumption 3 ≤ sunScaleConsumption 2 ∧
    sunScaleConsumption 2 = 1 - 2 / 5 :=
  ⟨(c5_consumption_scaling 2 3 (by norm_num) (by norm_num)).2.1,
   (c5_consumption_scaling 2 3 (by norm_num) (by norm_num)).2.2.1 (by norm_num)⟩

/-- Claim C6 counterexample: with the playing flag true, time scale 1 and
delta -1, starting from phase stable with timer 1, the sequencer timer drops
to 0 — elapsed time decreases, so the delta is not clamped to non-negative
before use. -/
theorem c6_counterexample :
    (frameUpdate true 1 (-1) { phase := Phase.stable, timer := 1 }).timer <
      ({ phase := Phase.stable, timer := 1 } : SceneState).timer := by
  norm_num [frameUpdate, effectiveDelta, sceneStep]

/-- Claim C6 as amended: the per-frame delta is not clamped; the sequencer
adds delta times the effective time scale to the timer as-is, so a negative
delta that triggers no transition strictly decreases the elapsed time. -/
theorem c6_no_clamp (p : Phase) (t d : ℚ) (hd : d < 0) (hth : t + d ≤ specThreshold p) :
    frameUpdate true 1 d { phase := p, timer := t } = { phase := p, timer := t + d } ∧
      t + d < t := by
  refine ⟨?_, by linarith⟩
  show sceneStep (effectiveDelta d 1) _ = _
  have h1 : effectiveDelta d 1 = d := by norm_num [effectiveDelta]
  rw [h1, sceneStep_eq]
  simp only
  rw [if_neg (not_lt.mpr hth)]

/-- Witness for the amended C6 at phase stable, timer 1, delta -1. -/
theorem c6_no_clamp_witness :
    frameUpdate true 1 (-1) { phase := Phase.stable, timer := 1 } =
        { phase := Phase.stable, timer := 1 + -1 } ∧
      (1 : ℚ) + -1 < 1 :=
  c6_no_clamp Phase.stable 1 (-1) (by norm_num) (by norm_num [specThreshold])

/-- The capped append never yields more than 50 retained points. -/
theorem appendCapped_length_le (gd : List GraphPoint) (pt : GraphPoint) :
    (appendCapped gd pt).length ≤ 50 := by
  unfold appendCapped
  split_ifs with h
  · simp only [List.length_drop]
    omega
  · simp only [List.length_append, List.length_singleton] at h ⊢
    omega

/-- Claim C7: the graph buffer never exceeds 50 points; nothing is appended
in the stable phase; nothing changes within 500 ms of the previous sample
unless the void-to-rebirth reset fires; and on the void-to-rebirth
transition the buffer becomes exactly the single seed point. -/
theorem c7_graph_invariants (prevPhase phase : Phase) (year now lastUpdate : ℚ)
    (gd : List GraphPoint) (h : gd.length ≤ 50) :
    (graphStep prevPhase phase year now lastUpdate gd).length ≤ 50 ∧
    (phase = Phase.stable → graphStep prevPhase phase year now lastUpdate gd = gd) ∧
    (now - lastUpdate ≤ 500 → ¬(phase = Phase.rebirth ∧ prevPhase = Phase.void) →
      graphStep prevPhase phase year now lastUpdate gd = gd) ∧
    (phase = Phase.rebirth ∧ prevPhase = Phase.void →
      graphStep prevPhase phase year now lastUpdate gd = [{ year := 0, stability := 100 }]) := by
  refine ⟨?_, ?_, ?_, ?_⟩
  · unfold graphStep
    split_ifs with h1 h2
    · simp
    · exact appendCapped_length_le _ _
    · exact h
  · intro hst
    unfold graphStep
    rw [if_neg (by simp [hst]), if_neg (by simp [hst])]
  · intro hthr hres
    unfold graphStep
    rw [if_neg hres, if_neg (by rintro ⟨h5, -⟩; exact absurd hthr (not_le.mpr h5))]
  · intro hres
    unfold graphStep
    rw [if_pos hres]

/-- Witness for C7: a void-to-rebirth call replaces the buffer by the seed
point, and the result respects the 50-point cap. -/
theorem c7_graph_invariants_witness :
    graphStep Phase.void Phase.rebirth 3 1000 0 [] = [{ year := 0, stability := 100 }] ∧
    (graphStep Phase.void Phase.rebirth 3 1000 0 []).length ≤ 50 :=
  ⟨(c7_graph_invariants Phase.void Phase.rebirth 3 1000 0 [] (by simp)).2.2.2 ⟨rfl, rfl⟩,
   (c7_graph_invariants Phase.void Phase.rebirth 3 1000 0 [] (by simp)).1⟩

/-- Claim C8: with the playing flag false, any finite sequence of frame
calls, each with its own time scale and delta, leaves the sequencer state
exactly unchanged — time is frozen, not merely slowed. -/
theorem c8_paused_state_frozen (s : SceneState) (calls : List (ℚ × ℚ)) :
    calls.foldl (fun st c => frameUpdate false c.1 c.2 st) s = s := by
  induction calls with
  | nil => rfl
  | cons c cs ih => simp [frameUpdate, ih]

/-- Claim C9: the rebirth-phase year function is monotone: for all
0 ≤ t1 ≤ t2, the year at t1 is at most the year at t2. -/
theorem c9_rebirth_year_monotone (t1 t2 : ℚ) (h0 : 0 ≤ t1) (h12 : t1 ≤ t2) :
    currentYear Phase.rebirth t1 ≤ currentYear Phase.rebirth t2 := by
  simp only [currentYear]
  exact pow_le_pow_left₀ h0 h12 6

/-- Witness for C9 at t1 = 1, t2 = 2. -/
theorem c9_rebirth_year_monotone_witness :
    currentYear Phase.rebirth 1 ≤ currentYear Phase.rebirth 2 :=
  c9_rebirth_year_monotone 1 2 (by norm_num) (by norm_num)

/-- Claim C10: a time scale of exactly 0 does not freeze time: the effective
advance is delta times 1 (full speed), while every nonzero time scale
multiplies the delta as given; the playing frame update feeds exactly this
effective advance to the sequencer. -/
theorem c10_timescale_zero_full_speed (d ts : ℚ) (hts : ts ≠ 0) :
    effectiveDelta d 0 = d ∧
    effectiveDelta d ts = d * ts ∧
    ∀ s : SceneState, frameUpdate true ts d s = sceneStep (effectiveDelta d ts) s := by
  exact ⟨by simp [effectiveDelta], by simp [effectiveDelta, hts], fun s => rfl⟩

/-- Witness for C10 at delta 3, time scale 2. -/
theorem c10_timescale_zero_full_speed_witness :
    effectiveDelta 3 0 = 3 ∧ effectiveDelta 3 2 = 3 * 2 :=
  ⟨(c10_timescale_zero_full_speed 3 2 (by norm_num)).1,
   (c10_timescale_zero_full_speed 3 2 (by norm_num)).2.1⟩
